import Mathlib

/-!
Verification model of the SpeakX speaking-practice application.

Server side (Express backend, `server.js`): the `/api/evaluate` handler
(input validation, AI-configuration check, mode derivation, mode-based
score adjustment, final clamp) and the `/api/feedback` handler with its
`getFallbackFeedback` helper.

Client side (`app.js`, class `SpeakingEvaluator`): the local evaluator
(`evaluateLocally`, `calculateClarity`, `calculateConfidence`), the
emotion-band derivation inside `visualizeAudio`, and the state reset
performed by `stopPractice`.

JavaScript numbers are modelled as rationals (`ℚ`); `Math.round` is
floor of `x + 1/2` (round half toward positive infinity), matching the
JS semantics on the ordinary values that occur here.
-/

/-- JS `Math.round`: round half toward positive infinity. -/
def jsRound (x : ℚ) : ℤ := ⌊x + 1/2⌋

/-- Truthiness of the `transcript` request field, as tested by the JS
expression `!transcript`: absent (`undefined`) or the empty string are
falsy, any non-empty string is truthy. -/
def transcriptTruthy : Option String → Bool
  | none => false
  | some s => !s.isEmpty

/-- Body of a `POST /api/evaluate` request, as destructured by the
handler: `const { transcript, hasFace, hasVoice, audioFeatures } = req.body`.
`audioFeatures` is only interpolated into the prompt string and never
affects the result, so it is omitted. -/
structure EvalRequest where
  transcript : Option String
  hasFace : Bool
  hasVoice : Bool
deriving DecidableEq, Repr

/-- The JSON object parsed out of the generative model's reply:
`{ clarity, confidence, clarityFeedback, confidenceFeedback, analysis }`. -/
structure ModelEval where
  clarity : ℚ
  confidence : ℚ
  clarityFeedback : String
  confidenceFeedback : String
  analysis : String
deriving DecidableEq, Repr

/-- The `evaluation` object of a successful `/api/evaluate` response. -/
structure Evaluation where
  clarity : ℚ
  confidence : ℚ
  clarityFeedback : String
  confidenceFeedback : String
  analysis : String
deriving DecidableEq, Repr

/-- Mode derivation in the `/api/evaluate` handler:
`let mode = 'No Voice'; if (hasFace && hasVoice) ... else if (!hasFace && hasVoice) ...`. -/
def deriveMode (hasFace hasVoice : Bool) : String :=
  if hasFace && hasVoice then "Human Face + Voice"
  else if !hasFace && hasVoice then "Only Voice"
  else "No Voice"

/-- The mode-based adjustment block of the handler: in `Only Voice` mode
the confidence is recomputed as `Math.round(confidence * 0.5)` and its
feedback replaced; in `No Voice` mode both scores are forced to `0` and
both feedback strings replaced. -/
def applyModeAdjustments (mode : String) (ev : ModelEval) : ModelEval :=
  if mode = "Only Voice" then
    { ev with
      confidence := ((jsRound (ev.confidence * (1/2)) : ℤ) : ℚ),
      confidenceFeedback := "Enable your camera to receive full confidence scoring and feedback." }
  else if mode = "No Voice" then
    { ev with
      clarity := 0,
      confidence := 0,
      clarityFeedback := "Please speak clearly into your microphone to receive clarity feedback.",
      confidenceFeedback := "Start speaking and enable your camera for a complete evaluation." }
  else ev

/-- The `evaluation` object built in the handler's `res.json` call:
mode adjustments followed by the unconditional final clamp
`Math.min(10, Math.max(0, score))` on each score. -/
def finalEvaluation (mode : String) (ev : ModelEval) : Evaluation :=
  let ev := applyModeAdjustments mode ev
  { clarity := min 10 (max 0 ev.clarity),
    confidence := min 10 (max 0 ev.confidence),
    clarityFeedback := ev.clarityFeedback,
    confidenceFeedback := ev.confidenceFeedback,
    analysis := ev.analysis }

/-- Possible responses of the `/api/evaluate` handler up to the point
where the AI call succeeds and its reply parses. -/
inductive EvalResponse where
  | badRequest (error : String)
  | serviceUnavailable (error : String)
  | ok (mode : String) (evaluation : Evaluation)
deriving DecidableEq, Repr

/-- HTTP status of an `/api/evaluate` response. -/
def EvalResponse.status : EvalResponse → ℕ
  | .badRequest _ => 400
  | .serviceUnavailable _ => 503
  | .ok _ _ => 200

/-- The `/api/evaluate` handler, for requests whose AI call succeeds and
parses to `modelOut`: input validation (`if (!transcript && !hasVoice)` →
400), configuration check (`if (!genAI || !model)` → 503), mode
derivation, adjustment and clamp, in the source's order. -/
def evaluateHandler (configured : Bool) (req : EvalRequest) (modelOut : ModelEval) :
    EvalResponse :=
  if !transcriptTruthy req.transcript && !req.hasVoice then
    .badRequest "No speech data provided"
  else if !configured then
    .serviceUnavailable "Gemini AI not configured. Please add GEMINI_API_KEY to .env file"
  else
    let mode := deriveMode req.hasFace req.hasVoice
    .ok mode (finalEvaluation mode modelOut)

/-- Result of the browser Local Evaluator (`evaluateLocally` in `app.js`). -/
structure LocalEvalResult where
  clarity : ℤ
  confidence : ℤ
  mode : String
deriving DecidableEq, Repr

/-- `SpeakingEvaluator.calculateClarity`:
`Math.min(10, Math.round(5 + Math.random()*3 + (voiceDetected ? 2 : 0)))`,
with the random draw passed in as `r`. -/
def calculateClarity (voiceDetected : Bool) (r : ℚ) : ℤ :=
  min 10 (jsRound ((5 + r * 3) + (if voiceDetected then 2 else 0)))

/-- `SpeakingEvaluator.calculateConfidence`:
face part `4 + Math.random()*3` when a face is detected, voice part
`2 + Math.random()*2` when voice is detected, rounded and capped at 10. -/
def calculateConfidence (faceDetected voiceDetected : Bool) (r1 r2 : ℚ) : ℤ :=
  min 10 (jsRound ((if faceDetected then 4 + r1 * 3 else 0) +
                   (if voiceDetected then 2 + r2 * 2 else 0)))

/-- `SpeakingEvaluator.evaluateLocally`: the three-way mode split of the
browser fallback evaluator. The five rational arguments are the
`Math.random()` draws consumed, in order, by the clarity formula, the two
confidence parts, and the two `No Voice` score formulas. -/
def evaluateLocally (hasFace hasVoice : Bool)
    (rClarity rFace rVoice rNvClarity rNvConfidence : ℚ) : LocalEvalResult :=
  if hasFace && hasVoice then
    { mode := "Human Face + Voice",
      clarity := calculateClarity hasVoice rClarity,
      confidence := calculateConfidence hasFace hasVoice rFace rVoice }
  else if !hasFace && hasVoice then
    { mode := "Only Voice",
      clarity := calculateClarity hasVoice rClarity,
      confidence := jsRound ((calculateConfidence hasFace hasVoice rFace rVoice : ℚ) * (1/2)) }
  else
    { mode := "No Voice",
      clarity := 5 + jsRound (rNvClarity * 2),
      confidence := 3 + jsRound (rNvConfidence * 2) }

/-- Emotion derivation in `SpeakingEvaluator.visualizeAudio`: default
`Neutral`, then the chained `finalDb > 40 / > 25 / > 10 / > 3` tests. -/
def emotionTone (finalDb : ℤ) : String :=
  if finalDb > 40 then "Energetic"
  else if finalDb > 25 then "Confident"
  else if finalDb > 10 then "Calm"
  else if finalDb > 3 then "Soft"
  else "Neutral"

/-- The browser `this.state` object of `SpeakingEvaluator`. -/
structure CaptureState where
  isRecording : Bool
  faceDetected : Bool
  voiceDetected : Bool
  evaluationCount : ℤ
  totalClarity : ℤ
  totalConfidence : ℤ
  sessionDuration : ℤ
  backendAvailable : Bool
deriving DecidableEq, Repr

/-- Effect of `SpeakingEvaluator.stopPractice` on `this.state`: the only
state fields it assigns are `isRecording`, `faceDetected` and
`voiceDetected`, all set to `false`. -/
def stopPracticeState (s : CaptureState) : CaptureState :=
  { s with isRecording := false, faceDetected := false, voiceDetected := false }

/-- The server's six fixed clarity tips (`clarityTips` in
`getFallbackFeedback`). -/
def clarityTips : List String :=
  ["Try to articulate each word more clearly and avoid mumbling.",
   "Speak with more structured sentences to boost clarity.",
   "Reduce filler words like 'um' and 'uh' for better clarity.",
   "Practice enunciating consonants more precisely.",
   "Slow down your speaking pace to improve clarity.",
   "Focus on completing your thoughts before moving to the next point."]

/-- The server's six fixed confidence tips (`confidenceTips` in
`getFallbackFeedback`). -/
def confidenceTips : List String :=
  ["Maintain eye contact with the camera to project confidence.",
   "Reduce pauses and hesitations while speaking.",
   "Speak with a stronger, more assertive tone.",
   "Keep your posture upright and face the camera directly.",
   "Practice deep breathing to reduce nervousness in your voice.",
   "Use hand gestures naturally to enhance your message."]

/-- JS pick `list[Math.floor(Math.random() * list.length)]` with the
random draw `r` passed in. -/
def randPick (l : List String) (r : ℚ) : String :=
  l.getD (⌊r * l.length⌋).toNat ""

/-- Feedback object returned by `/api/feedback`. -/
structure FeedbackTips where
  clarityTip : String
  confidenceTip : String
deriving DecidableEq, Repr

/-- `getFallbackFeedback(clarity, confidence, mode)`: the `clarity` and
`confidence` parameters are never read; a confidence tip is drawn first,
overridden in `Only Voice` mode; `No Voice` mode returns two fixed
sentences. -/
def getFallbackFeedback (clarity confidence : Option ℚ) (mode : String)
    (rConf rClar : ℚ) : FeedbackTips :=
  let confidenceTip := randPick confidenceTips rConf
  if mode = "Only Voice" then
    { clarityTip := randPick clarityTips rClar,
      confidenceTip := "Enable your camera to receive full confidence scoring and feedback." }
  else if mode = "No Voice" then
    { clarityTip := "Please speak clearly into your microphone to receive clarity feedback.",
      confidenceTip := "Start speaking and enable your camera for a complete evaluation." }
  else
    { clarityTip := randPick clarityTips rClar,
      confidenceTip := confidenceTip }

/-- Outcome of the `/api/feedback` handler's AI interaction: either the
call succeeded and its reply parsed to two tips, or anything in that
sequence threw (call failure or `JSON.parse` failure). -/
inductive AIResult where
  | ok (tips : FeedbackTips)
  | err
deriving DecidableEq, Repr

/-- HTTP response of the `/api/feedback` handler. -/
structure FeedbackResponse where
  status : ℕ
  success : Bool
  error : Option String
  feedback : FeedbackTips
deriving DecidableEq, Repr

/-- The `/api/feedback` handler: unconfigured AI answers 200 with
fallback feedback; a successful AI round-trip answers 200 with the
parsed tips; any thrown error is caught and answered 200 with fallback
feedback. No branch sets a non-200 status or an `error` field. -/
def feedbackHandler (configured : Bool) (clarity confidence : Option ℚ)
    (mode : String) (ai : AIResult) (rConf rClar : ℚ) : FeedbackResponse :=
  if !configured then
    { status := 200, success := true, error := none,
      feedback := getFallbackFeedback clarity confidence mode rConf rClar }
  else
    match ai with
    | .ok tips => { status := 200, success := true, error := none, feedback := tips }
    | .err =>
      { status := 200, success := true, error := none,
        feedback := getFallbackFeedback clarity confidence mode rConf rClar }

/-- Concrete request: non-empty transcript, face and voice present. -/
def reqFV : EvalRequest :=
  { transcript := some "Hello world", hasFace := true, hasVoice := true }

/-- Concrete request: non-empty transcript, voice only. -/
def reqOV : EvalRequest :=
  { transcript := some "Hello world", hasFace := false, hasVoice := true }

/-- Concrete request: non-empty transcript, neither face nor voice. -/
def reqNV : EvalRequest :=
  { transcript := some "Hello world", hasFace := false, hasVoice := false }

/-- Concrete request: empty transcript and no voice (fails validation). -/
def reqEmpty : EvalRequest :=
  { transcript := some "", hasFace := true, hasVoice := false }

/-- Concrete model output with ordinary integer scores. -/
def evHello : ModelEval :=
  { clarity := 6, confidence := 7,
    clarityFeedback := "Project your voice.",
    confidenceFeedback := "Sit upright.",
    analysis := "Good overall." }

/-- Concrete model output whose clarity is the non-integer 7.5. -/
def evHalf : ModelEval :=
  { clarity := 15/2, confidence := 7,
    clarityFeedback := "Project your voice.",
    confidenceFeedback := "Sit upright.",
    analysis := "Good overall." }

/-- Concrete model output whose confidence is the out-of-range 30. -/
def ev30 : ModelEval :=
  { clarity := 6, confidence := 30,
    clarityFeedback := "Project your voice.",
    confidenceFeedback := "Sit upright.",
    analysis := "Good overall." }

/-- Concrete capture state with accumulated statistics. -/
def s0 : CaptureState :=
  { isRecording := true, faceDetected := true, voiceDetected := true,
    evaluationCount := 3, totalClarity := 17, totalConfidence := 12,
    sessionDuration := 42, backendAvailable := true }

/-- C1: the mode derivation maps (true,true) to "Human Face + Voice",
(false,true) to "Only Voice", and both (true,false) and (false,false) to
"No Voice"; the browser Local Evaluator derives the same mode as the
server for every pair and every random draw. -/
theorem c1_mode_derivation (hF hV : Bool) (rA rB rC rD rE : ℚ) :
    deriveMode true true = "Human Face + Voice" ∧
    deriveMode false true = "Only Voice" ∧
    deriveMode true false = "No Voice" ∧
    deriveMode false false = "No Voice" ∧
    (evaluateLocally hF hV rA rB rC rD rE).mode = deriveMode hF hV := by
  refine ⟨rfl, rfl, rfl, rfl, ?_⟩
  cases hF <;> cases hV <;> simp [evaluateLocally, deriveMode]

/-- C2 (amended): every successful /api/evaluate response has clarity and
confidence in the closed interval [0,10]; they need not be integers. -/
theorem c2_scores_clamped (configured : Bool) (req : EvalRequest) (modelOut : ModelEval)
    (m : String) (e : Evaluation)
    (h : evaluateHandler configured req modelOut = .ok m e) :
    0 ≤ e.clarity ∧ e.clarity ≤ 10 ∧ 0 ≤ e.confidence ∧ e.confidence ≤ 10 := by
  unfold evaluateHandler at h
  split at h
  · exact absurd h (by simp)
  · split at h
    · exact absurd h (by simp)
    · rcases h with ⟨⟩
      simp only [finalEvaluation]
      exact ⟨le_min (by norm_num) (le_max_left 0 _), min_le_left _ _,
             le_min (by norm_num) (le_max_left 0 _), min_le_left _ _⟩

/-- Witness for C2: a concrete successful response has both scores in range. -/
theorem c2_scores_clamped_witness :
    0 ≤ (finalEvaluation "Human Face + Voice" evHello).clarity ∧
    (finalEvaluation "Human Face + Voice" evHello).clarity ≤ 10 ∧
    0 ≤ (finalEvaluation "Human Face + Voice" evHello).confidence ∧
    (finalEvaluation "Human Face + Voice" evHello).confidence ≤ 10 :=
  c2_scores_clamped true reqFV evHello "Human Face + Voice"
    (finalEvaluation "Human Face + Voice" evHello) rfl

/-- C2 counterexample: when the model returns clarity 7.5 in mode
"Human Face + Voice", the successful response carries clarity 7.5, which
is not an integer, so the returned scores are not always integers. -/
theorem c2_counterexample :
    evaluateHandler true reqFV evHalf =
      EvalResponse.ok "Human Face + Voice" (finalEvaluation "Human Face + Voice" evHalf) ∧
    (finalEvaluation "Human Face + Voice" evHalf).clarity = 15/2 ∧
    ¬ ∃ n : ℤ, (finalEvaluation "Human Face + Voice" evHalf).clarity = (n : ℚ) := by
  have hc : (finalEvaluation "Human Face + Voice" evHalf).clarity = 15/2 := by
    simp [finalEvaluation, applyModeAdjustments, evHalf]
    norm_num
  refine ⟨rfl, hc, ?_⟩
  rintro ⟨n, hn⟩
  rw [hc] at hn
  have h15 : (15 : ℚ) = (n : ℚ) * 2 := by field_simp at hn; linarith
  have h15z : (15 : ℤ) = n * 2 := by exact_mod_cast h15
  omega

/-- C3: for every validated request with hasVoice false (mode "No Voice")
and every model output, the successful response carries clarity 0,
confidence 0 and the two fixed feedback sentences, while the analysis is
whatever the model produced. -/
theorem c3_no_voice_forces_zero (req : EvalRequest) (modelOut : ModelEval)
    (hV : req.hasVoice = false) (hT : transcriptTruthy req.transcript = true) :
    evaluateHandler true req modelOut =
      EvalResponse.ok "No Voice"
        { clarity := 0, confidence := 0,
          clarityFeedback := "Please speak clearly into your microphone to receive clarity feedback.",
          confidenceFeedback := "Start speaking and enable your camera for a complete evaluation.",
          analysis := modelOut.analysis } := by
  cases hF : req.hasFace <;>
    simp [evaluateHandler, hT, hV, hF, deriveMode, finalEvaluation, applyModeAdjustments]

/-- Witness for C3: a concrete no-voice request with a non-empty
transcript gets the zeroed, fixed-sentence response. -/
theorem c3_no_voice_forces_zero_witness :
    evaluateHandler true reqNV evHello =
      EvalResponse.ok "No Voice"
        { clarity := 0, confidence := 0,
          clarityFeedback := "Please speak clearly into your microphone to receive clarity feedback.",
          confidenceFeedback := "Start speaking and enable your camera for a complete evaluation.",
          analysis := evHello.analysis } :=
  c3_no_voice_forces_zero reqNV evHello rfl rfl

/-- C4 (amended): in mode "Only Voice" the returned confidence is
round(model confidence * 0.5) passed through the final clamp to [0,10]
(so it equals the rounded half only when that value is already in
range), and the confidence feedback is the fixed camera sentence. -/
theorem c4_only_voice_halves_confidence (req : EvalRequest) (modelOut : ModelEval)
    (hF : req.hasFace = false) (hV : req.hasVoice = true) :
    evaluateHandler true req modelOut =
      EvalResponse.ok "Only Voice" (finalEvaluation "Only Voice" modelOut) ∧
    (finalEvaluation "Only Voice" modelOut).confidence =
      min 10 (max 0 ((jsRound (modelOut.confidence * (1/2)) : ℤ) : ℚ)) ∧
    (finalEvaluation "Only Voice" modelOut).confidenceFeedback =
      "Enable your camera to receive full confidence scoring and feedback." := by
  refine ⟨?_, ?_, ?_⟩
  · simp [evaluateHandler, hF, hV, deriveMode]
  · simp [finalEvaluation, applyModeAdjustments]
  · simp [finalEvaluation, applyModeAdjustments]

/-- Witness for C4: a concrete voice-only request. -/
theorem c4_only_voice_halves_confidence_witness :
    evaluateHandler true reqOV evHello =
      EvalResponse.ok "Only Voice" (finalEvaluation "Only Voice" evHello) ∧
    (finalEvaluation "Only Voice" evHello).confidence =
      min 10 (max 0 ((jsRound (evHello.confidence * (1/2)) : ℤ) : ℚ)) ∧
    (finalEvaluation "Only Voice" evHello).confidenceFeedback =
      "Enable your camera to receive full confidence scoring and feedback." :=
  c4_only_voice_halves_confidence reqOV evHello rfl rfl

/-- C4 counterexample: when the model returns confidence 30 in mode
"Only Voice", round(30 * 0.5) is 15 but the response carries the clamped
value 10, so the returned confidence does not always equal the rounded
half. -/
theorem c4_counterexample :
    evaluateHandler true reqOV ev30 =
      EvalResponse.ok "Only Voice" (finalEvaluation "Only Voice" ev30) ∧
    (finalEvaluation "Only Voice" ev30).confidence = 10 ∧
    ((jsRound (ev30.confidence * (1/2)) : ℤ) : ℚ) = 15 ∧
    (finalEvaluation "Only Voice" ev30).confidence ≠
      ((jsRound (ev30.confidence * (1/2)) : ℤ) : ℚ) := by
  have hr : ((jsRound (ev30.confidence * (1/2)) : ℤ) : ℚ) = 15 := by
    norm_num [jsRound, ev30]
  have hc : (finalEvaluation "Only Voice" ev30).confidence = 10 := by
    show min 10 (max 0 ((jsRound (ev30.confidence * (1/2)) : ℤ) : ℚ)) = 10
    rw [hr]
    norm_num
  exact ⟨rfl, hc, hr, by rw [hc, hr]; norm_num⟩

/-- C5: a request with falsy (empty or absent) transcript and hasVoice
false is answered 400 with the fixed error, independently of every other
field; any request with a truthy transcript or hasVoice true never takes
the 400 branch. -/
theorem c5_validation (configured : Bool) (req : EvalRequest) (modelOut : ModelEval) :
    (transcriptTruthy req.transcript = false ∧ req.hasVoice = false →
      evaluateHandler configured req modelOut = EvalResponse.badRequest "No speech data provided") ∧
    (transcriptTruthy req.transcript = true ∨ req.hasVoice = true →
      (evaluateHandler configured req modelOut).status ≠ 400) := by
  constructor
  · rintro ⟨h1, h2⟩
    simp [evaluateHandler, h1, h2]
  · intro h
    have hcond : (!transcriptTruthy req.transcript && !req.hasVoice) = false := by
      rcases h with h | h <;> simp [h]
    simp only [evaluateHandler, hcond, Bool.false_eq_true, if_false]
    split_ifs <;> simp [EvalResponse.status]

/-- Witness for C5: the concrete empty-transcript no-voice request is
answered 400 even with everything else set. -/
theorem c5_validation_witness :
    evaluateHandler true reqEmpty evHello = EvalResponse.badRequest "No speech data provided" :=
  (c5_validation true reqEmpty evHello).1 ⟨rfl, rfl⟩

/-- C6: the /api/feedback handler answers 200 with success true and no
error field for every input and every AI outcome; when the AI is
unconfigured or its call or parse fails, the feedback is the fallback
feedback. -/
theorem c6_feedback_always_ok (configured : Bool) (clarity confidence : Option ℚ)
    (mode : String) (ai : AIResult) (rConf rClar : ℚ) :
    (feedbackHandler configured clarity confidence mode ai rConf rClar).status = 200 ∧
    (feedbackHandler configured clarity confidence mode ai rConf rClar).success = true ∧
    (feedbackHandler configured clarity confidence mode ai rConf rClar).error = none ∧
    (feedbackHandler false clarity confidence mode ai rConf rClar).feedback =
      getFallbackFeedback clarity confidence mode rConf rClar ∧
    (feedbackHandler true clarity confidence mode AIResult.err rConf rClar).feedback =
      getFallbackFeedback clarity confidence mode rConf rClar := by
  cases configured <;> cases ai <;> simp [feedbackHandler]

/-- C7: in the Local Evaluator's "No Voice" case (no voice detected,
either face value) and for every random draw in [0,1), clarity is an
integer in [5,7] and confidence an integer in [3,5]. -/
theorem c7_local_no_voice_ranges (hasFace : Bool)
    (rClarity rFace rVoice rNvClarity rNvConfidence : ℚ)
    (h1 : 0 ≤ rNvClarity) (h2 : rNvClarity < 1)
    (h3 : 0 ≤ rNvConfidence) (h4 : rNvConfidence < 1) :
    (evaluateLocally hasFace false rClarity rFace rVoice rNvClarity rNvConfidence).mode
      = "No Voice" ∧
    5 ≤ (evaluateLocally hasFace false rClarity rFace rVoice rNvClarity rNvConfidence).clarity ∧
    (evaluateLocally hasFace false rClarity rFace rVoice rNvClarity rNvConfidence).clarity ≤ 7 ∧
    3 ≤ (evaluateLocally hasFace false rClarity rFace rVoice rNvClarity rNvConfidence).confidence ∧
    (evaluateLocally hasFace false rClarity rFace rVoice rNvClarity rNvConfidence).confidence ≤ 5 := by
  have hC0 : 0 ≤ jsRound (rNvClarity * 2) := by
    unfold jsRound
    exact Int.floor_nonneg.mpr (by linarith)
  have hC2 : jsRound (rNvClarity * 2) < 3 := by
    unfold jsRound
    exact Int.floor_lt.mpr (by push_cast; linarith)
  have hD0 : 0 ≤ jsRound (rNvConfidence * 2) := by
    unfold jsRound
    exact Int.floor_nonneg.mpr (by linarith)
  have hD2 : jsRound (rNvConfidence * 2) < 3 := by
    unfold jsRound
    exact Int.floor_lt.mpr (by push_cast; linarith)
  cases hasFace <;> simp [evaluateLocally] <;> omega

/-- Witness for C7: concrete random draws 0 and one half give scores in
the stated ranges. -/
theorem c7_local_no_voice_ranges_witness :
    (evaluateLocally false false 0 0 0 0 (1/2)).mode = "No Voice" ∧
    5 ≤ (evaluateLocally false false 0 0 0 0 (1/2)).clarity ∧
    (evaluateLocally false false 0 0 0 0 (1/2)).clarity ≤ 7 ∧
    3 ≤ (evaluateLocally false false 0 0 0 0 (1/2)).confidence ∧
    (evaluateLocally false false 0 0 0 0 (1/2)).confidence ≤ 5 :=
  c7_local_no_voice_ranges false 0 0 0 0 (1/2)
    (by norm_num) (by norm_num) (by norm_num) (by norm_num)

/-- C8 counterexample: the four thresholds 3, 10, 25, 40 delimit five
bands, not six: over the whole 0 to 60 level range the emotion label
takes exactly five distinct values. -/
theorem c8_counterexample :
    ((Finset.Icc (0 : ℤ) 60).image emotionTone).card = 5 ∧ (5 : ℕ) ≠ 6 := by
  constructor
  · decide
  · decide

/-- C8 (amended): the thresholds 3, 10, 25, 40 partition the level values
into five bands, and the assigned emotion is exactly the label of the
band the value falls in: Neutral up to 3, Soft up to 10, Calm up to 25,
Confident up to 40, Energetic above. -/
theorem c8_emotion_bands (finalDb : ℤ) :
    emotionTone finalDb =
      (if finalDb ≤ 3 then "Neutral"
       else if finalDb ≤ 10 then "Soft"
       else if finalDb ≤ 25 then "Calm"
       else if finalDb ≤ 40 then "Confident"
       else "Energetic") := by
  unfold emotionTone
  split_ifs <;> first | rfl | (exfalso; omega)

/-- C9 counterexample: stopping a session leaves the accumulated
evaluation statistics untouched: from a state with three evaluations
recorded, stopPractice keeps count 3, total clarity 17 and total
confidence 12, so they are not reset. -/
theorem c9_counterexample :
    (stopPracticeState s0).isRecording = false ∧
    (stopPracticeState s0).evaluationCount = 3 ∧
    (stopPracticeState s0).totalClarity = 17 ∧
    (stopPracticeState s0).totalConfidence = 12 ∧
    ¬((stopPracticeState s0).evaluationCount = 0 ∧
      (stopPracticeState s0).totalClarity = 0 ∧
      (stopPracticeState s0).totalConfidence = 0) := by
  refine ⟨rfl, rfl, rfl, rfl, ?_⟩
  rintro ⟨h, -, -⟩
  exact absurd h (by decide)

/-- C9 (amended): stopPractice sets isRecording, faceDetected and
voiceDetected to false and leaves every other state field, in particular
evaluationCount, totalClarity and totalConfidence, unchanged. -/
theorem c9_stop_resets_flags_only (s : CaptureState) :
    (stopPracticeState s).isRecording = false ∧
    (stopPracticeState s).faceDetected = false ∧
    (stopPracticeState s).voiceDetected = false ∧
    (stopPracticeState s).evaluationCount = s.evaluationCount ∧
    (stopPracticeState s).totalClarity = s.totalClarity ∧
    (stopPracticeState s).totalConfidence = s.totalConfidence ∧
    (stopPracticeState s).sessionDuration = s.sessionDuration ∧
    (stopPracticeState s).backendAvailable = s.backendAvailable :=
  ⟨rfl, rfl, rfl, rfl, rfl, rfl, rfl, rfl⟩

/-- C10: the missing-input validation runs before the AI-configuration
check: a request with falsy transcript and hasVoice false is answered
400 even when the AI client is unconfigured, and a 503 response can only
arise with an unconfigured client on a request that passed validation. -/
theorem c10_validation_before_config (req : EvalRequest) (modelOut : ModelEval) :
    (transcriptTruthy req.transcript = false ∧ req.hasVoice = false →
      (evaluateHandler false req modelOut).status = 400) ∧
    (∀ configured : Bool, (evaluateHandler configured req modelOut).status = 503 →
      configured = false ∧
      (transcriptTruthy req.transcript = true ∨ req.hasVoice = true)) := by
  constructor
  · rintro ⟨h1, h2⟩
    simp [evaluateHandler, h1, h2, EvalResponse.status]
  · intro configured h
    cases htr : transcriptTruthy req.transcript <;> cases hv : req.hasVoice <;>
      cases configured <;>
      simp_all [evaluateHandler, EvalResponse.status]

/-- Witness for C10: the concrete empty-transcript no-voice request is
answered 400 by the unconfigured handler, not 503. -/
theorem c10_validation_before_config_witness :
    (evaluateHandler false reqEmpty evHello).status = 400 :=
  (c10_validation_before_config reqEmpty evHello).1 ⟨rfl, rfl⟩
